import Mathlib

/-!
Verification of the interactive subprocess streaming modal of `gdev`
(package `internal/ui/terminal`, consumed by `internal/ui/todo`).

The Go source is shallowly embedded: machine `int` becomes `Int`
(Go integer division truncates toward zero, hence `Int.tdiv`),
Go `error` becomes `Option String` (`none` = nil), `tea.Cmd` becomes an
explicit `Cmd` value (`none` = nil command, `tick id` = the 50ms timer),
and the mutex-guarded `sharedOutput` becomes a plain record whose
operations are applied sequentially (the lock linearizes them).
Text styling (lipgloss `Render`) is delegated rendering; it is modeled
as the identity on the text content.
-/

namespace Gdev

/-- The Bubble Tea command values the modal can return: either no command
(Go `nil`) or the 50ms tick timer carrying the session identity. -/
inductive Cmd where
| noCmd : Cmd
| tick (id : Int) : Cmd
deriving DecidableEq, Repr

/-- Embeds `sharedOutput` from terminal.go: output lines accumulated by the
reader goroutines, plus a completion flag and terminal error. -/
structure sharedOutput where
  lines : List String
  done : Bool
  err : Option String
deriving DecidableEq, Repr

/-- Embeds `sharedOutput.addLine`: appends one line. -/
def addLine (s : sharedOutput) (line : String) : sharedOutput :=
  { s with lines := s.lines ++ [line] }

/-- Embeds `sharedOutput.getLines`: returns a copy of the accumulated lines
(in Go, a freshly allocated slice with the same contents). -/
def getLines (s : sharedOutput) : List String :=
  s.lines

/-- Embeds `sharedOutput.setDone`: sets the done flag and stores the error. -/
def setDone (s : sharedOutput) (e : Option String) : sharedOutput :=
  { s with done := true, err := e }

/-- Embeds `sharedOutput.isDone`: reads the completion flag and error. -/
def isDone (s : sharedOutput) : Bool × Option String :=
  (s.done, s.err)

/-- The fresh sink constructed by `RunCommandWithEnv`
(`&sharedOutput{lines: []string{}}`). -/
def emptySink : sharedOutput :=
  { lines := [], done := false, err := none }

/-- lipgloss style rendering (`styles.Help.Render`): external rendering
collaborator, modeled as the identity on text. -/
def renderHelp (s : String) : String := s

/-- lipgloss style rendering (`styles.Error.Render`). -/
def renderError (s : String) : String := s

/-- lipgloss style rendering (`styles.Selected.Render`). -/
def renderSelected (s : String) : String := s

/-- Embeds `terminal.Model`: the popup terminal modal state. The Go field
`output *sharedOutput` is a pointer shared with the runner goroutine;
here the field holds the sink contents visible at observation time. -/
structure Model where
  ID : Int
  Title : String
  Command : String
  Dir : String
  Lines : List String
  ScrollPos : Int
  MaxLines : Int
  Running : Bool
  Err : Option String
  AutoScroll : Bool
  Width : Int
  Height : Int
  output : Option sharedOutput
deriving DecidableEq, Repr

/-- Embeds `terminal.New`: the global `instanceCounter` is threaded explicitly;
returns the new model together with the incremented counter. -/
def New (counter : Int) (title : String) : Model × Int :=
  let c := counter + 1
  ({ ID := c
     Title := title
     Command := ""
     Dir := ""
     Lines := []
     ScrollPos := 0
     MaxLines := 1000
     Running := false
     Err := none
     AutoScroll := true
     Width := 80
     Height := 20
     output := none }, c)

/-- Embeds `Model.SetSize`: modal takes 80% of width (clamped to [60,120]) and
70% of height (clamped to [10,40]); Go `/` truncates toward zero. -/
def setSize (m : Model) (width height : Int) : Model :=
  let w := Int.tdiv (width * 80) 100
  let w := if w < 60 then 60 else w
  let w := if w > 120 then 120 else w
  let h := Int.tdiv (height * 70) 100
  let h := if h < 10 then 10 else h
  let h := if h > 40 then 40 else h
  { m with Width := w, Height := h }

/-- Embeds `Model.visibleLines`: content rows inside the modal chrome. -/
def visibleLines (m : Model) : Int :=
  m.Height - 6

/-- Embeds `Model.maxScroll`: largest legal scroll offset, floored at 0. -/
def maxScroll (m : Model) : Int :=
  let mx := (m.Lines.length : Int) - visibleLines m
  if mx < 0 then 0 else mx

/-- The key inputs `Model.handleKey` distinguishes, identified by which
configured binding the key string matches (default bindings are pairwise
distinct, so the match is a disjoint case split in source order). -/
inductive Key where
| up : Key
| down : Key
| pageUp : Key
| pageDown : Key
| top : Key
| bottom : Key
| close : Key
| other : Key
deriving DecidableEq, Repr

/-- Embeds `Model.handleKey`: scroll handling, one branch per bound key. -/
def handleKey (m : Model) (k : Key) : Model × Cmd :=
  match k with
  | .up =>
    let m := { m with AutoScroll := false }
    let m := if m.ScrollPos > 0 then { m with ScrollPos := m.ScrollPos - 1 } else m
    (m, Cmd.noCmd)
  | .down =>
    let m := if m.ScrollPos < maxScroll m then { m with ScrollPos := m.ScrollPos + 1 } else m
    let m := if m.ScrollPos ≥ maxScroll m then { m with AutoScroll := true } else m
    (m, Cmd.noCmd)
  | .pageUp =>
    let m := { m with AutoScroll := false }
    let m := { m with ScrollPos := m.ScrollPos - visibleLines m }
    let m := if m.ScrollPos < 0 then { m with ScrollPos := 0 } else m
    (m, Cmd.noCmd)
  | .pageDown =>
    let m := { m with ScrollPos := m.ScrollPos + visibleLines m }
    let m := if m.ScrollPos > maxScroll m then { m with ScrollPos := maxScroll m } else m
    let m := if m.ScrollPos ≥ maxScroll m then { m with AutoScroll := true } else m
    (m, Cmd.noCmd)
  | .top =>
    let m := { m with AutoScroll := false }
    let m := { m with ScrollPos := 0 }
    (m, Cmd.noCmd)
  | .bottom =>
    let m := { m with ScrollPos := maxScroll m }
    let m := { m with AutoScroll := true }
    (m, Cmd.noCmd)
  | _ => (m, Cmd.noCmd)

/-- Embeds `Model.tick`: schedules a TickMsg carrying this session's identity. -/
def tickCmd (m : Model) : Cmd :=
  Cmd.tick m.ID

/-- The rebuild step of `handleTick`: if the sink snapshot is nonempty,
replace the buffer with the synthetic header lines followed by the
snapshot, else keep the old buffer. -/
def rebuildLines (command : String) (old snap : List String) : List String :=
  if snap.length > 0 then [renderHelp ("$ " ++ command), ""] ++ snap else old

/-- The trim step of `handleTick`: when the buffer exceeds `MaxLines`,
keep only its last `MaxLines` entries (`m.Lines[len-MaxLines:]`). -/
def trimLines (L : List String) (maxL : Int) : List String :=
  if (L.length : Int) > maxL then L.drop (L.length - maxL.toNat) else L

/-- The status line the completion branch of `handleTick` appends:
a rendered error for a failed command, a rendered check for success. -/
def doneStatusLine (e : Option String) : String :=
  match e with
  | some msg => renderError ("Error: " ++ msg)
  | none => renderSelected "✓ Command completed"

/-- Embeds `Model.handleTick`: pull the sink snapshot, rebuild the display
buffer behind the synthetic header, trim to `MaxLines` from the oldest
end, auto-scroll, and on completion record the error and append the
status lines; reschedules the tick only while still running. -/
def handleTick (m : Model) : Model × Cmd :=
  match m.output with
  | none => (m, Cmd.noCmd)
  | some out =>
    let newLines := getLines out
    let lines2 := trimLines (rebuildLines m.Command m.Lines newLines) m.MaxLines
    let m1 := { m with Lines := lines2 }
    let m2 := if m1.AutoScroll then { m1 with ScrollPos := maxScroll m1 } else m1
    match isDone out with
    | (true, e) =>
      let m3 := { m2 with Running := false, Err := e }
      let m4 := { m3 with Lines := m3.Lines ++ ["", doneStatusLine e] }
      let m5 := if m4.AutoScroll then { m4 with ScrollPos := maxScroll m4 } else m4
      (m5, Cmd.noCmd)
    | (false, _) => (m2, tickCmd m2)

/-- The messages `Model.Update` dispatches on. -/
inductive Msg where
| windowSize (width height : Int) : Msg
| tickMsg (id : Int) : Msg
| key (k : Key) : Msg
deriving DecidableEq, Repr

/-- Embeds `Model.Update`: window resize, tick (with stale-session guard), key. -/
def update (m : Model) (msg : Msg) : Model × Cmd :=
  match msg with
  | .windowSize w h => (setSize m w h, Cmd.noCmd)
  | .tickMsg id => if id ≠ m.ID then (m, Cmd.noCmd) else handleTick m
  | .key k => handleKey m k

/-- Embeds `Model.RunCommandWithEnv` (and `RunCommand` via env = none): resets
the display state, installs a fresh sink, spawns the runner goroutine
(modeled separately by `runProcess`), and returns the first tick. -/
def runCommandWithEnv (m : Model) (_env : Option (List String)) (name : String) (args : List String) : Model × Cmd :=
  let cmd := name ++ " " ++ String.intercalate " " args
  let m := { m with
    Command := cmd
    Running := true
    Lines := [renderHelp ("$ " ++ cmd), ""]
    ScrollPos := 0
    Err := none
    output := some emptySink }
  (m, tickCmd m)

/-- Outcome of one subprocess as seen by `executeCommandStreaming`:
either the pipes/`cmd.Start()` fail before any output (SpawnError), or
the process ran, its reader loops delivered `lines` to the sink (in
arrival order; cross-stream interleaving is resolved in this order), and
`cmd.Wait()` returned `exit`. -/
inductive ProcOutcome where
| spawnFail (e : String) : ProcOutcome
| ran (lines : List String) (exit : Option String) : ProcOutcome
deriving DecidableEq, Repr

/-- Embeds `executeCommandStreaming`: the lines appended to the sink and the
error value returned to the spawning goroutine. On a spawn failure it
returns before any reader loop starts, so the sink is untouched. -/
def executeCommandStreaming (o : ProcOutcome) (s : sharedOutput) : sharedOutput × Option String :=
  match o with
  | .spawnFail e => (s, some e)
  | .ran ls exit => (ls.foldl addLine s, exit)

/-- The runner goroutine spawned by `RunCommandWithEnv`:
`err := executeCommandStreaming(...); output.setDone(err)`. -/
def runProcess (o : ProcOutcome) (s : sharedOutput) : sharedOutput :=
  let (s, e) := executeCommandStreaming o s
  setDone s e

/-- Embeds `Model.GetRawOutput`: newline-join of the sink's lines, untouched by
display truncation or synthetic header/status lines. -/
def GetRawOutput (m : Model) : String :=
  match m.output with
  | none => ""
  | some s => String.intercalate "\n" (getLines s)

/-- Embeds `Model.ShouldClose`: whether the key matches a quit binding. -/
def shouldClose (k : Key) : Bool :=
  k = Key.close

/-- One mutation of the sink, as performed by the reader goroutines
(`addLine`) and the runner goroutine (`setDone`). -/
inductive SinkOp where
| add (line : String) : SinkOp
| markDone (e : Option String) : SinkOp
deriving DecidableEq, Repr

/-- Apply one sink mutation. -/
def applySinkOp (s : sharedOutput) (op : SinkOp) : sharedOutput :=
  match op with
  | .add l => addLine s l
  | .markDone e => setDone s e

/-- Apply a sequence of sink mutations in linearization order. -/
def applySinkOps (s : sharedOutput) (ops : List SinkOp) : sharedOutput :=
  ops.foldl applySinkOp s

/-- Apply a sequence of messages to the modal, discarding commands. -/
def applyMsgs (m : Model) (msgs : List Msg) : Model :=
  msgs.foldl (fun m msg => (update m msg).1) m

/-- The views of the todo component (`todo.View`). -/
inductive View where
| listView : View
| detailView : View
| createView : View
| editView : View
| deleteConfirmView : View
| promptEditorView : View
| terminalView : View
deriving DecidableEq, Repr

/-- The fields of `todo.Model` that the terminal-modal lifecycle touches.
`TerminalCallback` is a caller-supplied closure; its identity is modeled
by a tag (`none` = Go nil) and its invocation by an emitted event. -/
structure TodoModel where
  CurrentView : View
  PreviousView : View
  Terminal : Model
  TerminalCallback : Option Nat
deriving DecidableEq, Repr

/-- Observable invocation of the completion callback: which callback ran
and the raw output string it was handed. -/
inductive TEvent where
| invoked (tag : Nat) (output : String) : TEvent
deriving DecidableEq, Repr

/-- Embeds `todo.Model.UpdateTerminalView`: on a close key, read the raw output,
invoke the callback if set, restore the previous view and clear the
callback; otherwise forward the key to the terminal modal. -/
def updateTerminalView (m : TodoModel) (k : Key) : TodoModel × List TEvent :=
  if shouldClose k then
    let output := GetRawOutput m.Terminal
    let evs := match m.TerminalCallback with
      | some tag => [TEvent.invoked tag output]
      | none => []
    ({ m with CurrentView := m.PreviousView, TerminalCallback := none }, evs)
  else
    let t := (handleKey m.Terminal k).1
    ({ m with Terminal := t }, [])

/-- One key step of `todo.Model.handleKeyMsg`, restricted to the
terminal-modal session: the callback is reachable only through the
`TerminalView` dispatch arm. -/
def stepTodo (m : TodoModel) (k : Key) : TodoModel × List TEvent :=
  if m.CurrentView = View.terminalView then updateTerminalView m k
  else (m, [])

/-- Run a sequence of key steps, collecting callback invocations. -/
def runTodo : TodoModel → List Key → TodoModel × List TEvent
  | m, [] => (m, [])
  | m, k :: ks =>
    let p := stepTodo m k
    let q := runTodo p.1 ks
    (q.1, p.2 ++ q.2)

/-- Helper: the trimmed buffer never exceeds a nonnegative limit. -/
theorem trimLines_length_le (L : List String) (N : Int) (hN : 0 ≤ N) :
    ((trimLines L N).length : Int) ≤ N := by
  unfold trimLines
  split_ifs with hgt
  · simp only [List.length_drop]
    omega
  · omega

/-- Helper: dropping two more entries steps over a two-element front. -/
theorem drop_two_front (a b : String) (t : List String) (n : Nat) :
    (a :: b :: t).drop (n + 2) = t.drop n := by
  show (a :: b :: t).drop (n + 1 + 1) = t.drop n
  rw [List.drop_succ_cons, List.drop_succ_cons]

/-- Helper: when the sink snapshot is nonempty and at least as long as
the (nonnegative) limit, rebuild-then-trim yields exactly the last
`N` snapshot lines — the header lines are dropped. -/
theorem trimLines_rebuild_full (c : String) (old snap : List String) (N : Int)
    (_hN : 0 ≤ N) (hpos : 0 < snap.length) (hfull : N ≤ (snap.length : Int)) :
    trimLines (rebuildLines c old snap) N = snap.drop (snap.length - N.toNat) := by
  rw [rebuildLines, if_pos hpos]
  rw [trimLines]
  rw [if_pos (by simp only [List.length_append, List.length_cons, List.length_nil]; omega)]
  simp only [List.cons_append, List.nil_append, List.length_cons]
  have he : snap.length + 1 + 1 - N.toNat = (snap.length - N.toNat) + 2 := by omega
  rw [he, drop_two_front]

/-- Helper: a tick observed while the command is running rebuilds and
trims the buffer and reschedules the tick for the same session. -/
theorem handleTick_running (m : Model) (s : sharedOutput)
    (h : m.output = some s) (hd : s.done = false) :
    (handleTick m).1.Lines = trimLines (rebuildLines m.Command m.Lines s.lines) m.MaxLines ∧
    (handleTick m).2 = Cmd.tick m.ID := by
  simp only [handleTick, h, getLines, isDone, hd, tickCmd]
  by_cases hA : m.AutoScroll <;> simp [hA]

/-- Helper: a tick observing completion appends the blank and status
lines after trimming, records the error, stops running, and schedules
no further tick. -/
theorem handleTick_done (m : Model) (s : sharedOutput)
    (h : m.output = some s) (hd : s.done = true) :
    (handleTick m).1.Lines =
      trimLines (rebuildLines m.Command m.Lines s.lines) m.MaxLines ++ ["", doneStatusLine s.err] ∧
    (handleTick m).1.Running = false ∧
    (handleTick m).1.Err = s.err ∧
    (handleTick m).2 = Cmd.noCmd := by
  simp only [handleTick, h, getLines, isDone, hd]
  by_cases hA : m.AutoScroll <;> simp [hA]

/-- A completed sink holding three output lines, for the C4 scenario. -/
def c4ExampleSink : sharedOutput :=
  { lines := ["l1", "l2", "l3"], done := true, err := none }

/-- A modal with `MaxLines = 1` polling `c4ExampleSink`. -/
def c4ExampleModel : Model :=
  { (New 0 "t").1 with Command := "c", MaxLines := 1, AutoScroll := false, output := some c4ExampleSink }

/-- C4 counterexample: the claim fails on both counts. With `MaxLines = 1`
and three sink lines on a completed command, the tick first trims the
rebuilt buffer to its last line — dropping the synthetic header — and
then appends a blank and the success status line, so the buffer ends at
3 lines, above the limit, and without the header. -/
theorem c4_counterexample :
    (handleTick c4ExampleModel).1.Lines = ["l3", "", "✓ Command completed"] ∧
    (1 : Int) < ((handleTick c4ExampleModel).1.Lines.length : Int) := by
  decide

/-- C4 (amended): after a tick taken while the command is still running,
the display buffer length is at most `MaxLines`; the trim drops the
oldest lines first, including the synthetic header: with limit `N` at
most the number of sink lines, exactly the last `N` sink lines are
retained (the header is not preserved). A completion tick then appends a
blank and a status line after trimming, so the buffer can exceed the
limit by up to two lines. -/
theorem c4_tick_buffer_trim (m : Model) (s : sharedOutput)
    (h : m.output = some s) (hN : 0 ≤ m.MaxLines) :
    (s.done = false →
      (((handleTick m).1.Lines.length : Int) ≤ m.MaxLines ∧
      (0 < s.lines.length → m.MaxLines ≤ (s.lines.length : Int) →
        (handleTick m).1.Lines = s.lines.drop (s.lines.length - m.MaxLines.toNat)))) ∧
    (s.done = true →
      ((handleTick m).1.Lines.length : Int) ≤ m.MaxLines + 2) := by
  constructor
  · intro hd
    rw [(handleTick_running m s h hd).1]
    refine ⟨trimLines_length_le _ _ hN, ?_⟩
    intro hpos hfull
    rw [trimLines_rebuild_full m.Command m.Lines s.lines m.MaxLines hN hpos hfull]
  · intro hd
    rw [(handleTick_done m s h hd).1]
    have hb := trimLines_length_le (rebuildLines m.Command m.Lines s.lines) m.MaxLines hN
    simp only [List.length_append, List.length_cons, List.length_nil]
    omega

/-- A still-running sink holding three output lines, for the C4 witness. -/
def c4RunningSink : sharedOutput :=
  { lines := ["l1", "l2", "l3"], done := false, err := none }

/-- A modal with `MaxLines = 2` polling `c4RunningSink`. -/
def c4RunningModel : Model :=
  { (New 0 "t").1 with Command := "c", MaxLines := 2, output := some c4RunningSink }

/-- C4 witness: a running tick with limit 2 over three sink lines keeps
exactly the last two sink lines. -/
theorem c4_tick_buffer_trim_witness :
    ((handleTick c4RunningModel).1.Lines.length : Int) ≤ c4RunningModel.MaxLines ∧
    (handleTick c4RunningModel).1.Lines = ["l2", "l3"] := by
  have h := (c4_tick_buffer_trim c4RunningModel c4RunningSink rfl (by decide)).1 rfl
  refine ⟨h.1, ?_⟩
  rw [h.2 (by decide) (by decide)]
  rfl

/-- The sink left behind by a runner whose spawn failed. -/
def c6SpawnFailSink : sharedOutput :=
  runProcess (.spawnFail "spawn failed") emptySink

/-- A modal that started a command whose spawn failed, observed after
the runner goroutine recorded the failure. -/
def c6ExampleModel : Model :=
  { (runCommandWithEnv (New 0 "t").1 none "no-such-program" []).1 with output := some c6SpawnFailSink }

/-- C6 counterexample: `RunCommandWithEnv` returns the tick command and
a model with no error and `Running = true` unconditionally — its result
does not depend on the spawn outcome at all — so a spawn failure is not
surfaced synchronously and the tick loop does start. -/
theorem c6_counterexample :
    (runCommandWithEnv (New 0 "t").1 none "no-such-program" []).2 = Cmd.tick 1 ∧
    (runCommandWithEnv (New 0 "t").1 none "no-such-program" []).1.Err = none ∧
    (runCommandWithEnv (New 0 "t").1 none "no-such-program" []).1.Running = true := by
  decide

/-- C6 (amended): a spawn failure is surfaced asynchronously through the
sink: the runner records the error via `setDone` without appending any
line, so no partial output exists (`GetRawOutput` is empty), and the
next tick observes completion — it stops the tick chain (no command is
rescheduled), clears `Running`, and records the spawn error on the
model. -/
theorem c6_spawn_error_async (m : Model) (e : String) (s : sharedOutput)
    (hs : s = runProcess (.spawnFail e) emptySink) (hm : m.output = some s) :
    s.lines = [] ∧ s.done = true ∧ s.err = some e ∧
    GetRawOutput m = "" ∧
    (handleTick m).2 = Cmd.noCmd ∧
    (handleTick m).1.Running = false ∧
    (handleTick m).1.Err = some e := by
  subst hs
  have hd := handleTick_done m _ hm rfl
  refine ⟨rfl, rfl, rfl, ?_, hd.2.2.2, hd.2.1, hd.2.2.1⟩
  simp only [GetRawOutput, hm, getLines, runProcess, executeCommandStreaming, setDone, emptySink]
  rfl

/-- C6 witness: the concrete failed-spawn modal. -/
theorem c6_spawn_error_async_witness :
    GetRawOutput c6ExampleModel = "" ∧
    (handleTick c6ExampleModel).2 = Cmd.noCmd ∧
    (handleTick c6ExampleModel).1.Err = some "spawn failed" := by
  have h := c6_spawn_error_async c6ExampleModel "spawn failed" c6SpawnFailSink rfl rfl
  exact ⟨h.2.2.2.1, h.2.2.2.2.1, h.2.2.2.2.2.2⟩

/-- Apply a sequence of key inputs to the modal, discarding commands. -/
def applyKeys (m : Model) (ks : List Key) : Model :=
  ks.foldl (fun m k => (handleKey m k).1) m

/-- Helper: `handleKey` never touches the line buffer or the modal
dimensions, so `maxScroll` is unchanged; and from an in-bounds offset
with a nonnegative visible height, every key leaves the offset within
`[0, maxScroll]`, and the auto-scroll flag can be true afterwards only
when the offset sits at `maxScroll`. -/
theorem handleKey_scroll_invariant (m : Model) (k : Key)
    (hvis : 0 ≤ visibleLines m) (h0 : 0 ≤ m.ScrollPos) (h1 : m.ScrollPos ≤ maxScroll m)
    (hauto : m.AutoScroll = true → m.ScrollPos = maxScroll m) :
    (handleKey m k).1.Lines = m.Lines ∧ (handleKey m k).1.Height = m.Height ∧
    0 ≤ (handleKey m k).1.ScrollPos ∧
    (handleKey m k).1.ScrollPos ≤ maxScroll (handleKey m k).1 ∧
    ((handleKey m k).1.AutoScroll = true →
      (handleKey m k).1.ScrollPos = maxScroll (handleKey m k).1) := by
  by_cases hA : m.AutoScroll
  · have hpos := hauto hA
    cases k <;>
      simp only [handleKey, maxScroll, visibleLines, hA] at * <;>
      split_ifs at * <;> simp_all <;> omega
  · cases k <;>
      simp only [handleKey, maxScroll, visibleLines, hA] at * <;>
      split_ifs at * <;> simp_all <;> omega

/-- C2 counterexample: the claim fails for a resize. Starting from a
50-line buffer at height 10 scrolled to the bottom (offset 46), a window
resize to height 57 raises the modal height to 39 and the visible count
to 33, so the maximum offset drops to 17 — but `SetSize` does not clamp,
leaving the offset at 46, outside `[0, max(0, lineCount - visibleHeight)]`. -/
theorem c2_counterexample :
    maxScroll (applyMsgs
      { (New 0 "T").1 with Lines := List.replicate 50 "x", Height := 10 }
      [Msg.key Key.bottom, Msg.windowSize 200 57]) <
    (applyMsgs
      { (New 0 "T").1 with Lines := List.replicate 50 "x", Height := 10 }
      [Msg.key Key.bottom, Msg.windowSize 200 57]).ScrollPos := by
  decide

/-- C2 (amended): after any finite sequence of scroll-up / scroll-down /
page-up / page-down / jump-top / jump-bottom key operations — resize
excluded — the scroll offset stays within
`[0, max(0, lineCount - visibleHeight)]`, for any starting state whose
offset is in bounds, whose visible height is nonnegative (guaranteed
after any `SetSize`), and where auto-scroll implies being at the bottom.
Resize itself recomputes the visible line count but does not clamp. -/
theorem c2_scroll_keys_stay_in_bounds (m : Model) (ks : List Key)
    (hvis : 0 ≤ visibleLines m) (h0 : 0 ≤ m.ScrollPos) (h1 : m.ScrollPos ≤ maxScroll m)
    (hauto : m.AutoScroll = true → m.ScrollPos = maxScroll m) :
    0 ≤ (applyKeys m ks).ScrollPos ∧
    (applyKeys m ks).ScrollPos ≤ maxScroll (applyKeys m ks) := by
  induction ks generalizing m with
  | nil => exact ⟨h0, h1⟩
  | cons k ks ih =>
    obtain ⟨hL, hH, g0, g1, gA⟩ := handleKey_scroll_invariant m k hvis h0 h1 hauto
    have hvis' : 0 ≤ visibleLines (handleKey m k).1 := by
      simpa [visibleLines, hH] using hvis
    simpa [applyKeys] using ih (handleKey m k).1 hvis' g0 g1 gA

/-- C2 witness: a concrete key sequence from a freshly created model. -/
theorem c2_scroll_keys_stay_in_bounds_witness :
    0 ≤ (applyKeys
      { (New 0 "T").1 with Lines := List.replicate 9 "x" }
      [Key.down, Key.pageDown, Key.up, Key.bottom, Key.pageUp, Key.top, Key.down]).ScrollPos ∧
    (applyKeys
      { (New 0 "T").1 with Lines := List.replicate 9 "x" }
      [Key.down, Key.pageDown, Key.up, Key.bottom, Key.pageUp, Key.top, Key.down]).ScrollPos ≤
    maxScroll (applyKeys
      { (New 0 "T").1 with Lines := List.replicate 9 "x" }
      [Key.down, Key.pageDown, Key.up, Key.bottom, Key.pageUp, Key.top, Key.down]) := by
  exact c2_scroll_keys_stay_in_bounds
    { (New 0 "T").1 with Lines := List.replicate 9 "x" }
    [Key.down, Key.pageDown, Key.up, Key.bottom, Key.pageUp, Key.top, Key.down]
    (by decide) (by decide) (by decide) (by decide)

/-- C3 counterexample: on a freshly created model (empty buffer, so the
maximum offset is 0), a scroll-up lands on the maximum offset yet
disables auto-scroll — refuting "auto-scroll is true if and only if the
offset equals the maximum". -/
theorem c3_counterexample :
    (handleKey (New 0 "t").1 Key.up).1.ScrollPos =
      maxScroll (handleKey (New 0 "t").1 Key.up).1 ∧
    (handleKey (New 0 "t").1 Key.up).1.AutoScroll = false := by
  decide

/-- C3 (amended): only the forward direction holds and only as a
preserved invariant: from a state where the offset is in bounds, the
visible height is nonnegative, and auto-scroll implies being at the
bottom, any single scroll/page/jump operation leaves auto-scroll true
only if the resulting offset equals the maximum. The converse is false:
an operation can land on the maximum with auto-scroll disabled (e.g.
scroll-up or jump-top when the buffer fits in the viewport). -/
theorem c3_autoscroll_only_if_bottom (m : Model) (k : Key)
    (hvis : 0 ≤ visibleLines m) (h0 : 0 ≤ m.ScrollPos) (h1 : m.ScrollPos ≤ maxScroll m)
    (hauto : m.AutoScroll = true → m.ScrollPos = maxScroll m) :
    (handleKey m k).1.AutoScroll = true →
      (handleKey m k).1.ScrollPos = maxScroll (handleKey m k).1 :=
  (handleKey_scroll_invariant m k hvis h0 h1 hauto).2.2.2.2

/-- C3 witness: a concrete jump-bottom, after which auto-scroll is on,
so the offset sits at the maximum. -/
theorem c3_autoscroll_only_if_bottom_witness :
    (handleKey { (New 0 "T").1 with Lines := List.replicate 9 "x" } Key.bottom).1.ScrollPos =
      maxScroll (handleKey { (New 0 "T").1 with Lines := List.replicate 9 "x" } Key.bottom).1 := by
  exact c3_autoscroll_only_if_bottom
    { (New 0 "T").1 with Lines := List.replicate 9 "x" } Key.bottom
    (by decide) (by decide) (by decide) (by decide) (by decide)

/-- Helper: with no callback installed, a terminal-session step emits no
invocation and cannot install a callback. -/
theorem stepTodo_callback_none (m : TodoModel) (k : Key) (h : m.TerminalCallback = none) :
    (stepTodo m k).2 = [] ∧ (stepTodo m k).1.TerminalCallback = none := by
  by_cases hv : m.CurrentView = View.terminalView <;>
    by_cases hc : shouldClose k <;>
      simp [stepTodo, updateTerminalView, hv, hc, h]

/-- Helper: with no callback installed, a whole run emits no invocation. -/
theorem runTodo_callback_none (m : TodoModel) (ks : List Key) (h : m.TerminalCallback = none) :
    (runTodo m ks).2 = [] := by
  induction ks generalizing m with
  | nil => rfl
  | cons k ks ih =>
    obtain ⟨h1, h2⟩ := stepTodo_callback_none m k h
    simp [runTodo, h1, ih _ h2]

/-- Helper: one step emits at most one invocation, and a step that does
emit one leaves the callback cleared. -/
theorem stepTodo_single (m : TodoModel) (k : Key) :
    (stepTodo m k).2.length ≤ 1 ∧
    ((stepTodo m k).2 ≠ [] → (stepTodo m k).1.TerminalCallback = none) := by
  by_cases hv : m.CurrentView = View.terminalView <;>
    by_cases hc : shouldClose k <;>
      cases hcb : m.TerminalCallback <;>
        simp [stepTodo, updateTerminalView, hv, hc, hcb]

/-- C8: along every sequence of terminal-session key steps the completion
callback is invoked at most once, and any close step that does invoke it
clears the callback field to nil in the resulting model, so it can never
fire twice. -/
theorem c8_callback_at_most_once (m : TodoModel) (ks : List Key)
    (m2 : TodoModel) (k : Key) (h : (updateTerminalView m2 k).2 ≠ []) :
    (runTodo m ks).2.length ≤ 1 ∧
    (updateTerminalView m2 k).1.TerminalCallback = none := by
  constructor
  · induction ks generalizing m with
    | nil => simp [runTodo]
    | cons k0 ks ih =>
      obtain ⟨hl, hcl⟩ := stepTodo_single m k0
      by_cases he : (stepTodo m k0).2 = []
      · simpa [runTodo, he] using ih (stepTodo m k0).1
      · have hrest : (runTodo (stepTodo m k0).1 ks).2 = [] :=
          runTodo_callback_none _ _ (hcl he)
        simp only [runTodo, hrest, List.append_nil]
        exact hl
  · by_cases hc : shouldClose k
    · simp [updateTerminalView, hc]
    · simp [updateTerminalView, hc] at h

/-- A todo model sitting in the terminal view with a callback installed. -/
def c8ExampleModel : TodoModel :=
  { CurrentView := View.terminalView, PreviousView := View.listView, Terminal := (New 0 "t").1, TerminalCallback := some 0 }

/-- C8 witness: two close keys in a row still invoke at most once, and
the invoking close clears the callback. -/
theorem c8_callback_at_most_once_witness :
    (runTodo c8ExampleModel [Key.close, Key.close]).2.length ≤ 1 ∧
    (updateTerminalView c8ExampleModel Key.close).1.TerminalCallback = none := by
  exact c8_callback_at_most_once c8ExampleModel [Key.close, Key.close]
    c8ExampleModel Key.close (by decide)

/-- C1 counterexample: calling `setDone` a second time with a different
error does not retain the first error — the second call overwrites it. -/
theorem c1_counterexample :
    (setDone (setDone emptySink (some "e1")) (some "e2")).err = some "e2" ∧
    (some "e2" : Option String) ≠ some "e1" := by
  exact ⟨rfl, by decide⟩

/-- C1 (amended): a second `setDone` leaves the done flag set (the flag
is idempotent), but it overwrites the terminal error — the last error is
retained, not the first. -/
theorem c1_setDone_flag_idempotent_error_last_wins (s : sharedOutput) (e1 e2 : Option String) :
    (setDone (setDone s e1) e2).done = true ∧ (setDone (setDone s e1) e2).err = e2 :=
  ⟨rfl, rfl⟩

/-- C10: for every input width and height, `SetSize` leaves the modal
width in [60, 120] and height in [10, 40], so the visible line count
(height − 6) is at least 4. -/
theorem c10_setSize_bounds (m : Model) (w h : Int) :
    60 ≤ (setSize m w h).Width ∧ (setSize m w h).Width ≤ 120 ∧
    10 ≤ (setSize m w h).Height ∧ (setSize m w h).Height ≤ 40 ∧
    4 ≤ visibleLines (setSize m w h) := by
  simp only [setSize, visibleLines]
  split_ifs <;> omega

/-- C5: a tick message whose session identity differs from the model's
leaves the model unchanged and schedules no command, and `New` assigns
strictly increasing identities: each instantiation returns an identity
larger than the counter it consumed, and threading the counter through
two instantiations yields strictly increasing identities. -/
theorem c5_stale_tick_ignored (m : Model) (i : Int) (h : i ≠ m.ID) (c : Int) (t1 t2 : String) :
    update m (Msg.tickMsg i) = (m, Cmd.noCmd) ∧
    c < (New c t1).1.ID ∧ (New c t1).2 = (New c t1).1.ID ∧
    (New c t1).1.ID < (New ((New c t1).2) t2).1.ID := by
  refine ⟨?_, ?_, rfl, ?_⟩
  · simp [update, h]
  · simp [New]
  · simp [New]

/-- C5 witness: concrete stale tick on a freshly created model. -/
theorem c5_stale_tick_ignored_witness :
    update (New 0 "t").1 (Msg.tickMsg 5) = ((New 0 "t").1, Cmd.noCmd) ∧
    (0 : Int) < (New 0 "a").1.ID ∧ (New 0 "a").2 = (New 0 "a").1.ID ∧
    (New 0 "a").1.ID < (New ((New 0 "a").2) "b").1.ID := by
  have h := c5_stale_tick_ignored (New 0 "t").1 5 (by decide) 0 "a" "b"
  exact ⟨h.1, h.2.1, h.2.2.1, h.2.2.2⟩

/-- C7: the raw output is the newline-join of exactly the sink's lines,
independent of the display buffer's contents; in the scenario where the
process printed "line1" then "line2" and exited 0, it is "line1\nline2". -/
theorem c7_raw_output (m : Model) (s : sharedOutput) (h : m.output = some s) (ls : List String) :
    GetRawOutput m = String.intercalate "\n" s.lines ∧
    GetRawOutput { m with Lines := ls } = GetRawOutput m ∧
    GetRawOutput { (runCommandWithEnv (New 0 "t").1 none "cmd" []).1 with
      output := some (runProcess (.ran ["line1", "line2"] none) emptySink) } = "line1\nline2" := by
  refine ⟨?_, ?_, ?_⟩
  · simp [GetRawOutput, h, getLines]
  · simp [GetRawOutput, h, getLines]
  · rfl

/-- C7 witness: concrete model holding the post-exit sink. -/
theorem c7_raw_output_witness :
    GetRawOutput { (New 0 "t").1 with
      output := some (runProcess (.ran ["line1", "line2"] none) emptySink) } =
      String.intercalate "\n" (runProcess (.ran ["line1", "line2"] none) emptySink).lines := by
  exact (c7_raw_output { (New 0 "t").1 with
    output := some (runProcess (.ran ["line1", "line2"] none) emptySink) }
    (runProcess (.ran ["line1", "line2"] none) emptySink) rfl []).1

/-- Helper: one sink mutation only ever appends to the line sequence. -/
theorem applySinkOp_lines_extend (s : sharedOutput) (op : SinkOp) :
    ∃ t, (applySinkOp s op).lines = s.lines ++ t := by
  cases op with
  | add l => exact ⟨[l], rfl⟩
  | markDone e => exact ⟨[], (List.append_nil _).symm⟩

/-- C9: `getLines` returns (a copy of) exactly the sink's lines, and the
sink is append-only: after any sequence of append/markDone operations the
earlier snapshot is a prefix of the later one, so the observed line count
never shrinks. -/
theorem c9_snapshot_append_only (s : sharedOutput) (ops : List SinkOp) :
    getLines s = s.lines ∧
    (∃ t, getLines (applySinkOps s ops) = getLines s ++ t) ∧
    (getLines s).length ≤ (getLines (applySinkOps s ops)).length := by
  have key : ∀ (s : sharedOutput), ∃ t, (applySinkOps s ops).lines = s.lines ++ t := by
    induction ops with
    | nil => exact fun s => ⟨[], (List.append_nil _).symm⟩
    | cons op ops ih =>
      intro s
      obtain ⟨t1, h1⟩ := applySinkOp_lines_extend s op
      obtain ⟨t2, h2⟩ := ih (applySinkOp s op)
      refine ⟨t1 ++ t2, ?_⟩
      simp only [applySinkOps, List.foldl_cons] at h2 ⊢
      rw [h2, h1, List.append_assoc]
  obtain ⟨t, ht⟩ := key s
  refine ⟨rfl, ⟨t, ht⟩, ?_⟩
  simp [getLines, ht]

end Gdev
